import Mathlib

/-!
Verification development for the enhanced CAPTCHA generator
(`enhanced_captcha.py`).  The Python source is shallowly embedded:
pure numeric computations become Lean functions over `ℕ`, `ℤ` and `ℚ`
(Python float arithmetic is modelled by exact rational arithmetic, and
Python `int(...)` truncation toward zero by `truncQ`), random draws
become explicit oracle parameters (`secrets.randbelow(n)` outcomes are
modelled as `draw % n`, `secrets.randbits(32) / 2**32` as a rational
oracle value), and the pixel-level primitives of the external PIL
library (line/arc/ellipse rasterisation, text rendering, paste,
resampling, smoothing) are abstract parameters that can only transform
the pixel function of an image, exactly as PIL in-place drawing does.
-/

namespace EnhancedCaptcha

/-- Python `int(q)` for a rational `q`: truncation toward zero. -/
def truncQ (q : ℚ) : ℤ := if q < 0 then -⌊-q⌋ else ⌊q⌋

/-- `ALPHANUMERIC_CHARS`: the 36 symbols 0-9 followed by A-Z. -/
def ALPHANUMERIC_CHARS : String := "0123456789ABCDEFGHIJKLMNOPQRSTUVWXYZ"

/-- The alphabet as a list of characters. -/
def alphaList : List Char := ALPHANUMERIC_CHARS.data

/-- The difficulty profile: one of the class-level configuration
dictionaries of `EnhancedImageCaptcha`.  Optional dictionary keys
(`line_distractors`, `circular_distractors`, `non_ascii_distractors`)
are modelled as `Option ℕ` because the code tests key membership;
keys read through `config.get(key, False)` are modelled as `Bool`
fields defaulting to `false`. -/
structure Config where
  lookup_table : List ℕ
  character_offset_dx : ℤ × ℤ
  character_offset_dy : ℤ × ℤ
  character_rotate : ℤ × ℤ
  character_warp_dx : ℚ × ℚ
  character_warp_dy : ℚ × ℚ
  word_space_probability : ℚ
  word_offset_dx : ℚ
  noise_dots : ℕ
  noise_curves : ℕ
  line_distractors : Option ℕ := none
  complex_background : Bool := false
  circular_distractors : Option ℕ := none
  non_ascii_distractors : Option ℕ := none
  blur_effect : Bool := false
  character_overlap : Bool := false
deriving DecidableEq

/-- `[int(i * 1.97) for i in range(256)]` (exact rationals). -/
def lookupTable : List ℕ := (List.range 256).map (fun i => i * 197 / 100)

/-- `EnhancedImageCaptcha.base_config` (the part2 profile). -/
def baseConfig : Config where
  lookup_table := lookupTable
  character_offset_dx := (0, 4)
  character_offset_dy := (0, 6)
  character_rotate := (-30, 30)
  character_warp_dx := (1/10, 3/10)
  character_warp_dy := (1/5, 3/10)
  word_space_probability := 3/10
  word_offset_dx := 1/4
  noise_dots := 30
  noise_curves := 1

/-- `EnhancedImageCaptcha.medium_config` (the part3 profile). -/
def mediumConfig : Config where
  lookup_table := lookupTable
  character_offset_dx := (0, 6)
  character_offset_dy := (0, 8)
  character_rotate := (-35, 35)
  character_warp_dx := (1/10, 1/4)
  character_warp_dy := (3/20, 1/4)
  word_space_probability := 2/5
  word_offset_dx := 7/20
  noise_dots := 35
  noise_curves := 2
  line_distractors := some 2
  complex_background := true

/-- `EnhancedImageCaptcha.hard_config` (the part4 profile). -/
def hardConfig : Config where
  lookup_table := lookupTable
  character_offset_dx := (0, 8)
  character_offset_dy := (0, 10)
  character_rotate := (-45, 45)
  character_warp_dx := (3/20, 7/20)
  character_warp_dy := (1/5, 7/20)
  word_space_probability := 2/5
  word_offset_dx := 2/5
  noise_dots := 45
  noise_curves := 3
  line_distractors := some 3
  complex_background := true
  circular_distractors := some 2
  non_ascii_distractors := some 1
  blur_effect := false
  character_overlap := false

/-- The difficulty dispatch of `EnhancedImageCaptcha.__init__`
(lines 210-216): `part3` and `part4` select their profiles and every
other name falls into the `else` branch, which loads a copy of
`base_config`. -/
def resolveConfig (difficulty : String) : Config :=
  if difficulty = "part3" then mediumConfig
  else if difficulty = "part4" then hardConfig
  else baseConfig

/-- Modelled from the spec: the contract
`resolve(tier_name) -> DifficultyProfile` that "fails with an
UnknownTierError if the name is not one of the registered tiers"
(part2, part3, part4); the failure is modelled as `none`.  This
definition follows the specification text and exists only to be
compared against `resolveConfig`, which is what the code does. -/
def resolveTierSpec (difficulty : String) : Option Config :=
  if difficulty = "part2" then some baseConfig
  else if difficulty = "part3" then some mediumConfig
  else if difficulty = "part4" then some hardConfig
  else none

/-- The random draws consumed by `generate_text`: the raw outcome of
`secrets.randbelow(5)` for the omitted-length case and the raw index
draws of `secrets.choice(ALPHANUMERIC_CHARS)`, one per position. -/
structure TextRand where
  ldraw : ℕ
  cdraw : ℕ → ℕ

/-- `generate_text(length=None)` (lines 256-260): if the length is
omitted it is `secrets.randbelow(5) + 3`; the string is a join of
independent uniform choices from `ALPHANUMERIC_CHARS`. -/
def generate_text (tr : TextRand) (lengthArg : Option ℕ) : String :=
  let L := lengthArg.getD (tr.ldraw % 5 + 3)
  String.mk ((List.range L).map (fun i => alphaList.getD (tr.cdraw i % 36) 'A'))

/-- A pixel function: coordinates to channel values. -/
abbrev Pix := ℕ → ℕ → List ℤ

/-- A PIL image: a mode string, a size, and pixel content. -/
structure PImage where
  mode : String
  width : ℕ
  height : ℕ
  pix : Pix

/-- `PIL.Image.new(mode, (W, H), fill)`. -/
def createImage (mode : String) (W H : ℕ) (fill : List ℤ) : PImage :=
  { mode := mode, width := W, height := H, pix := fun _ _ => fill }

/-- The pixel-level primitives of the external PIL library.  Each one
can only transform the pixel content of an image; the coordinates,
colors and widths computed by the repository code are passed in.
`textTry` returns `none` when the text draw raises (a glyph that the
chosen font cannot render). -/
structure DrawSem where
  lineSem : ℤ × ℤ → ℤ × ℤ → List ℤ → ℕ → Pix → Pix
  arcSem : List ℕ → ℕ → ℕ → List ℤ → ℕ → Pix → Pix
  ellipseSem : ℤ × ℤ → ℤ × ℤ → List ℤ → ℕ → Pix → Pix
  textTry : ℤ × ℤ → Char → ℕ → List ℤ → Option (Pix → Pix)
  maskSem : PImage → List ℕ → Pix
  pasteSem : PImage → ℤ × ℤ → Pix → Pix → Pix
  resizeSem : PImage → ℕ → ℕ → Pix
  smoothSem : PImage → Pix

/-- `im.resize((w, h), ...)`: the result has exactly the requested
size; the resampled content comes from the library. -/
def resizeImg (sem : DrawSem) (im : PImage) (w h : ℕ) : PImage :=
  { mode := im.mode, width := w, height := h, pix := sem.resizeSem im w h }

/-- `im.filter(SMOOTH)` (line 578): a new image of the same size and
mode whose content is the smoothed original. -/
def filterSmooth (sem : DrawSem) (im : PImage) : PImage :=
  { im with pix := sem.smoothSem im }

/-- `create_complex_background` (lines 262-275): the nested
`putpixel` loop writes, at every in-range coordinate, the gradient
`(min(255, int(235 + (x/w)*15)), min(255, int(240 + (y/h)*10)),
min(255, int(245 + ((x+y)/(w+h))*10)))`. -/
def create_complex_background (img : PImage) : PImage :=
  { img with pix := fun x y =>
      if x < img.width ∧ y < img.height then
        [ min 255 ⌊(235 : ℚ) + (x : ℚ) / (img.width : ℚ) * 15⌋,
          min 255 ⌊(240 : ℚ) + (y : ℚ) / (img.height : ℚ) * 10⌋,
          min 255 ⌊(245 : ℚ) + ((x : ℚ) + (y : ℚ)) / ((img.width : ℚ) + (img.height : ℚ)) * 10⌋ ]
      else img.pix x y }

/-- The glyph stream produced by the character loop: either an
inter-character space filler or a real character. -/
inductive Glyph where
  | space : Glyph
  | chr : Char → Glyph
deriving DecidableEq

/-- The real character carried by a glyph, if any. -/
def glyphChar : Glyph → Option Char
  | Glyph.space => none
  | Glyph.chr c => some c

/-- The character loop of `create_captcha_image` (lines 466-469): for
each character, when the uniform draw `u i` satisfies
`u i > word_space_probability` a space glyph is appended first, and
the character itself is always appended.  `i` indexes the successive
`secrets.randbits(32) / 2**32` draws. -/
def buildGlyphs (p : ℚ) (u : ℕ → ℚ) : List Char → ℕ → List Glyph
  | [], _ => []
  | c :: rest, i =>
      (if p < u i then [Glyph.space] else []) ++ Glyph.chr c :: buildGlyphs p u rest (i + 1)

/-- The space image of `_draw_character` (lines 408-410):
a fully transparent RGBA buffer of size 10 by 10. -/
def spaceImage : PImage :=
  { mode := "RGBA", width := 10, height := 10, pix := fun _ _ => [0, 0, 0, 0] }

/-- The random data consumed per glyph by `_draw_character` and the
paste loop: `u` drives the space-insertion draws, `meas i` is the
measured text bounding box `(w, h)` used as the final
`im.transform((int(w), int(h)), QUAD, ...)` size for the glyph at
position `i` (absorbing the font choice and the retry with a larger
font), `glyphPix i` is its warped pixel content, and `vdraw`/`hdraw`
are the raw `secrets.randbelow(11)` jitter draws. -/
structure LayoutRand where
  u : ℕ → ℚ
  meas : ℕ → ℕ × ℕ
  glyphPix : ℕ → Pix
  vdraw : ℕ → ℕ
  hdraw : ℕ → ℕ

/-- `_draw_character` at the image level: a space is the fixed
transparent placeholder; any other character becomes an RGBA image
whose size is the measured `(w, h)` of the final quad transform. -/
def drawCharacter (meas : ℕ → ℕ × ℕ) (gp : ℕ → Pix) (i : ℕ) (g : Glyph) : PImage :=
  match g with
  | Glyph.space => spaceImage
  | Glyph.chr _ => { mode := "RGBA", width := (meas i).1, height := (meas i).2, pix := gp i }

/-- The glyph images of one generation call, indexed by position. -/
def glyphImages (r : LayoutRand) (gl : List Glyph) : List PImage :=
  gl.enum.map (fun p => drawCharacter r.meas r.glyphPix p.1 p.2)

/-- The positive-size filter of line 472:
`[im for im in images if im.size[0] > 0 and im.size[1] > 0]`. -/
def filterImages (l : List PImage) : List PImage :=
  l.filter (fun im => decide (0 < im.width) && decide (0 < im.height))

/-- `available_width = self._width * 0.9` (line 485). -/
def availableWidth (W : ℕ) : ℚ := (W : ℚ) * (9/10)

/-- `target_char_width = available_width * 0.7` (line 486). -/
def targetCharWidth (W : ℕ) : ℚ := availableWidth W * (7/10)

/-- `target_spacing_width = available_width * 0.3` (line 487). -/
def targetSpacingWidth (W : ℕ) : ℚ := availableWidth W * (3/10)

/-- The gap computation of lines 483-505, with the division guarded:
the divisor `num_chars - 1` is evaluated only in the `num_chars > 1`
branch, and `none` records a (never occurring) division by zero. -/
def spacingGuarded (W n : ℕ) : Option ℤ :=
  if 1 < n then
    if ((n : ℚ) - 1) = 0 then none
    else some ⌊targetSpacingWidth W / ((n : ℚ) - 1)⌋
  else some 0

/-- `spacing_per_gap`: `int(target_spacing_width / (num_chars - 1))`
when `num_chars > 1`, else `0`. -/
def spacingPerGapBase (W n : ℕ) : ℤ := (spacingGuarded W n).getD 0

/-- The `character_overlap` adjustment of lines 512-514:
`overlap_reduction = int(spacing_per_gap * 0.3)` and
`spacing_per_gap = max(5, spacing_per_gap - overlap_reduction)`. -/
def spacingWithOverlap (cfg : Config) (s : ℤ) : ℤ :=
  if cfg.character_overlap then max 5 (s - truncQ ((s : ℚ) * (3/10))) else s

/-- The paste loop of lines 516-533: each glyph gets a clamped
vertical offset `max(0, min(int((H - h)/2) + randbelow(11) - 5, H - h))`
and a horizontal offset `max(0, current + randbelow(11) - 5)`, is
pasted through the lookup-table mask, and the running offset advances
by the glyph width plus the gap. -/
def pasteAll (sem : DrawSem) (lookup : List ℕ) (vdraw hdraw : ℕ → ℕ) (H : ℕ) (spacing : ℤ) :
    List PImage → ℤ → ℕ → Pix → Pix
  | [], _, _, pix => pix
  | im :: rest, cur, i, pix =>
      let v0 : ℤ := truncQ (((H : ℚ) - (im.height : ℚ)) / 2) + ((vdraw i % 11 : ℕ) : ℤ) - 5
      let v : ℤ := max 0 (min v0 ((H : ℤ) - (im.height : ℤ)))
      let fo : ℤ := max 0 (cur + (((hdraw i % 11 : ℕ) : ℤ) - 5))
      let mask := sem.maskSem im lookup
      pasteAll sem lookup vdraw hdraw H spacing rest (cur + (im.width : ℤ) + spacing) (i + 1)
        (sem.pasteSem im (fo, v) mask pix)

/-- The canvas before any glyph is pasted: a flat `RGB` fill of the
configured size (line 456), overwritten by the gradient when
`complex_background` is enabled (lines 459-460). -/
def backgroundCanvas (cfg : Config) (W H : ℕ) (background : List ℤ) : PImage :=
  let image := createImage "RGB" W H background
  if cfg.complex_background then create_complex_background image else image

/-- `create_captcha_image(chars, color, background)` (lines 453-535).
The steps, in source order: background canvas, glyph stream with
random space insertion, positive-size filter, early return on an
empty list, optional uniform upscale of every glyph when the total
glyph width undershoots `target_char_width`, gap computation,
centering offset (computed from the pre-overlap gap), the
`character_overlap` gap adjustment, and the paste loop. -/
def create_captcha_image (sem : DrawSem) (r : LayoutRand) (cfg : Config)
    (chars : List Char) (color background : List ℤ) (W H : ℕ) : PImage :=
  let image := backgroundCanvas cfg W H background
  let glyphs := buildGlyphs cfg.word_space_probability r.u chars 0
  let images1 := filterImages (glyphImages r glyphs)
  if images1.isEmpty then image else
  let numChars := images1.length
  let totalCharWidth0 := (images1.map (fun im => im.width)).sum
  let images2 :=
    if 1 < numChars ∧ (totalCharWidth0 : ℚ) < targetCharWidth W then
      images1.map (fun im => resizeImg sem im
        (Int.toNat ⌊(im.width : ℚ) * (targetCharWidth W / (totalCharWidth0 : ℚ))⌋)
        (Int.toNat ⌊(im.height : ℚ) * (targetCharWidth W / (totalCharWidth0 : ℚ))⌋))
    else images1
  let totalCharWidth := (images2.map (fun im => im.width)).sum
  let spacingBase := spacingPerGapBase W numChars
  let totalWidthNeeded : ℤ := (totalCharWidth : ℤ) + spacingBase * ((numChars : ℤ) - 1)
  let startOffset : ℤ := max 10 (truncQ (((W : ℚ) - (totalWidthNeeded : ℚ)) / 2))
  let spacing := spacingWithOverlap cfg spacingBase
  { image with pix := pasteAll sem cfg.lookup_table r.vdraw r.hdraw H spacing images2 startOffset 0 image.pix }

/-- `color[:3]` lightened by `amt` per channel, capped at 255, when the
color has at least three components (lines 393-400 and 555-560). -/
def lighten (color : List ℤ) (amt : ℤ) : List ℤ :=
  if 3 ≤ color.length then
    [min 255 (color.getD 0 0 + amt), min 255 (color.getD 1 0 + amt), min 255 (color.getD 2 0 + amt)]
  else color

/-- `create_noise_dots` (lines 379-404): `number` single-pixel marks
at positions `randbelow(w + 1), randbelow(h + 1)`, drawn with width 1
in the lightened color. -/
def create_noise_dots (sem : DrawSem) (pos : ℕ → ℕ × ℕ) (img : PImage)
    (color : List ℤ) (number : ℕ) : PImage :=
  { img with pix := ((List.range number).foldl
      (fun pix k =>
        let x1 := (pos k).1 % (img.width + 1)
        let y1 := (pos k).2 % (img.height + 1)
        sem.lineSem ((x1 : ℤ), (y1 : ℤ)) ((x1 : ℤ), (y1 : ℤ)) (lighten color 50) 1 pix)
      img.pix) }

/-- `create_noise_curve` (lines 364-377): one arc whose box, angles
and stroke width come from the seven `randbelow` draws `d 0 .. d 6`. -/
def create_noise_curve (sem : DrawSem) (d : ℕ → ℕ) (img : PImage) (color : List ℤ) : PImage :=
  let w := img.width
  let h := img.height
  let x1 := d 0 % (w / 5 + 1)
  let x2 := d 1 % (w - w / 5 + 1) + w / 5
  let y1 := d 2 % (h - 2 * (h / 5) + 1) + h / 5
  let y2 := d 3 % (h - y1 - h / 5 + 1) + y1
  let endAngle := d 4 % 41 + 160
  let startAngle := d 5 % 21
  let wid := d 6 % 3 + 1
  { img with pix := sem.arcSem [x1, y1, x2, y2] startAngle endAngle color wid img.pix }

/-- `create_line_distractors` (lines 277-305): `count` lines, each
diagonal, horizontal or vertical according to `randbelow(3)`, width 1,
color `(*color[:3], randbelow(50) + 30)`. -/
def create_line_distractors (sem : DrawSem) (d : ℕ → ℕ → ℕ) (img : PImage)
    (color : List ℤ) (count : ℕ) : PImage :=
  { img with pix := ((List.range count).foldl
      (fun pix k =>
        let w := img.width
        let h := img.height
        let lineType := d k 0 % 3
        let pts : (ℤ × ℤ) × (ℤ × ℤ) :=
          if lineType = 0 then
            (((d k 1 % w : ℕ), (d k 2 % h : ℕ)), ((d k 3 % w : ℕ), (d k 4 % h : ℕ)))
          else if lineType = 1 then
            let y := d k 1 % h
            ((0, (y : ℕ)), ((w : ℕ), (y : ℕ)))
          else
            let x := d k 1 % w
            (((x : ℕ), 0), ((x : ℕ), (h : ℕ)))
        let alpha : ℤ := (d k 5 % 50 : ℕ) + 30
        sem.lineSem pts.1 pts.2 (color.take 3 ++ [alpha]) 1 pix)
      img.pix) }

/-- `create_circular_distractors` (lines 307-329): `count` outlined
ellipses with center `randbelow(w), randbelow(h)`, radius
`randbelow(15) + 8` and color `(*color[:3], randbelow(40) + 20)` when
the color has three components, else the color unchanged. -/
def create_circular_distractors (sem : DrawSem) (d : ℕ → ℕ → ℕ) (img : PImage)
    (color : List ℤ) (count : ℕ) : PImage :=
  { img with pix := ((List.range count).foldl
      (fun pix k =>
        let w := img.width
        let h := img.height
        let x : ℤ := (d k 0 % w : ℕ)
        let y : ℤ := (d k 1 % h : ℕ)
        let radius : ℤ := (d k 2 % 15 : ℕ) + 8
        let alpha : ℤ := (d k 3 % 40 : ℕ) + 20
        let circleColor := if color.length = 3 then color.take 3 ++ [alpha] else color
        sem.ellipseSem (x - radius, y - radius) (x + radius, y + radius) circleColor 1 pix)
      img.pix) }

/-- The fixed confusable symbol set of `add_non_ascii_distractors`
(line 337): `['*', '#', '?', '✓']`. -/
def distractorChars : List Char := ['*', '#', '?', '✓']

/-- The random draws of one `add_non_ascii_distractors` call, indexed
by the loop iteration. -/
structure NonAsciiRand where
  charIdx : ℕ → ℕ
  fontIdx : ℕ → ℕ
  side : ℕ → ℕ
  xdraw : ℕ → ℕ
  ydraw : ℕ → ℕ
  alphadraw : ℕ → ℕ

/-- One loop iteration of `add_non_ascii_distractors` (lines 340-360)
up to the guarded `draw.text` call: the chosen character, font,
position and low-alpha color, and the render outcome (`none` when the
font cannot render the glyph and `draw.text` raises, which the
`try/except` turns into a skip). -/
def nonAsciiAttempt (sem : DrawSem) (r : NonAsciiRand) (tf : List ℕ) (w h : ℕ)
    (color : List ℤ) (i : ℕ) : Option (Pix → Pix) :=
  let ch := distractorChars.getD (r.charIdx i % 4) (Char.ofNat 42)
  let font := tf.getD (r.fontIdx i % tf.length) 0
  let x : ℕ := if r.side i % 2 ≠ 0 then r.xdraw i % (w / 4) else r.xdraw i % (w / 4) + 3 * w / 4
  let y : ℕ := r.ydraw i % (h - 30)
  let alpha : ℤ := (r.alphadraw i % 40 : ℕ) + 30
  let dcolor := if color.length = 3 then color ++ [alpha] else color
  sem.textTry ((x : ℤ), (y : ℤ)) ch font dcolor

/-- `add_non_ascii_distractors` (lines 331-362): when the font list is
non-empty, `count` placements are attempted in order; an attempt whose
`draw.text` raises is skipped (`except: continue`) and the loop goes
on with the next one. -/
def add_non_ascii_distractors (sem : DrawSem) (r : NonAsciiRand) (tf : List ℕ)
    (img : PImage) (color : List ℤ) (count : ℕ) : PImage :=
  if tf.isEmpty then img
  else { img with pix := ((List.range count).foldl
      (fun pix i =>
        match nonAsciiAttempt sem r tf img.width img.height color i with
        | none => pix
        | some f => f pix)
      img.pix) }

/-- `random_color(start, end, opacity)` (lines 607-614), with the
three `randbelow(end - start + 1)` outcomes supplied by `d`. -/
def random_color (d : ℕ → ℕ) (start endv : ℕ) (opacity : Option ℤ) : List ℤ :=
  let red : ℤ := (d 0 % (endv - start + 1) : ℕ) + (start : ℤ)
  let green : ℤ := (d 1 % (endv - start + 1) : ℕ) + (start : ℤ)
  let blue : ℤ := (d 2 % (endv - start + 1) : ℕ) + (start : ℤ)
  match opacity with
  | none => [red, green, blue]
  | some o => [red, green, blue, o]

/-- All random draws of one `generate_image` call. -/
structure GenRand where
  layout : LayoutRand
  bgDraw : ℕ → ℕ
  fgDraw : ℕ → ℕ
  fgOpacityDraw : ℕ
  dotPos : ℕ → ℕ × ℕ
  curveDraw : ℕ → ℕ → ℕ
  lineDraw : ℕ → ℕ → ℕ
  circDraw : ℕ → ℕ → ℕ
  nonAscii : NonAsciiRand

/-- The instance state of `EnhancedImageCaptcha`: the constructor
arguments, the profile copied from the class-level table, and the
lazily filled `_truefonts` cache (font objects abstracted to handles). -/
structure CaptchaState where
  width : ℕ
  height : ℕ
  fonts : List String
  font_sizes : List ℕ
  difficulty : String
  config : Config
  truefontsCache : List ℕ

/-- `EnhancedImageCaptcha.__init__` (lines 173-219): `fonts or
DEFAULT_FONTS` and `font_sizes or (30, 36, 42, 48)` (a `None` or empty
argument falls back), the difficulty dispatch, and an empty font
cache. -/
def mkCaptcha (w h : ℕ) (fontsArg : Option (List String)) (sizesArg : Option (List ℕ))
    (difficulty : String) (defaultFonts : List String) : CaptchaState :=
  let fonts := match fontsArg with
    | some l => if l.isEmpty then defaultFonts else l
    | none => defaultFonts
  let sizes := match sizesArg with
    | some l => if l.isEmpty then [30, 36, 42, 48] else l
    | none => [30, 36, 42, 48]
  { width := w, height := h, fonts := fonts, font_sizes := sizes,
    difficulty := difficulty, config := resolveConfig difficulty, truefontsCache := [] }

/-- The handle of `load_default()`. -/
def defaultFontHandle : ℕ := 0

/-- The nested loading loop of the `truefonts` property (lines
226-254): every (font path, size) pair is tried, pairs that fail to
load (`loader` returns `none`) are skipped. -/
def loadFonts (loader : String → ℕ → Option ℕ) (fonts : List String) (sizes : List ℕ) : List ℕ :=
  fonts.flatMap (fun f => sizes.filterMap (fun s => loader f s))

/-- The `truefonts` property (lines 221-254): return the cache when it
is non-empty; otherwise load the pool (falling back to the default
font when no fonts were given or none loaded) and store it in
`_truefonts`. -/
def truefontsGet (loader : String → ℕ → Option ℕ) (s : CaptchaState) :
    List ℕ × CaptchaState :=
  if s.truefontsCache.isEmpty then
    let tf :=
      if s.fonts.isEmpty then [defaultFontHandle]
      else
        let loaded := loadFonts loader s.fonts s.font_sizes
        if loaded.isEmpty then [defaultFontHandle] else loaded
    (tf, { s with truefontsCache := tf })
  else (s.truefontsCache, s)

/-- `create_captcha_image` as a method: reads the instance profile and
dimensions; the character loop touches the `truefonts` property (via
`_draw_character`) exactly when the text is non-empty, which fills the
cache. -/
def create_captcha_image_st (sem : DrawSem) (r : LayoutRand) (loader : String → ℕ → Option ℕ)
    (s : CaptchaState) (chars : List Char) (color background : List ℤ) :
    PImage × CaptchaState :=
  if chars.isEmpty then
    (create_captcha_image sem r s.config chars color background s.width s.height, s)
  else
    let q := truefontsGet loader s
    (create_captcha_image sem r q.2.config chars color background q.2.width q.2.height, q.2)

/-- The post-compose distortion layers of `generate_image` (lines
549-575), in source order: noise dots, `noise_curves` arcs with the
lightened color, then the three key-guarded distractor layers.  `tf`
is the font pool seen by the non-ASCII layer. -/
def distortionStack (sem : DrawSem) (gr : GenRand) (cfg : Config) (tf : List ℕ)
    (im0 : PImage) (color : List ℤ) : PImage :=
  let im1 := create_noise_dots sem gr.dotPos im0 color cfg.noise_dots
  let im2 := (List.range cfg.noise_curves).foldl
      (fun im k => create_noise_curve sem (gr.curveDraw k) im (lighten color 80)) im1
  let im3 := match cfg.line_distractors with
    | some n => create_line_distractors sem gr.lineDraw im2 color n
    | none => im2
  let im4 := match cfg.circular_distractors with
    | some n => create_circular_distractors sem gr.circDraw im3 color n
    | none => im3
  match cfg.non_ascii_distractors with
  | some n => add_non_ascii_distractors sem gr.nonAscii tf im4 color n
  | none => im4

/-- When the `non_ascii_distractors` key is present,
`add_non_ascii_distractors` reads the `truefonts` property, which
fills the cache; otherwise the cache is left alone. -/
def forceFontsIfNonAscii (loader : String → ℕ → Option ℕ) (t : CaptchaState) :
    List ℕ × CaptchaState :=
  match t.config.non_ascii_distractors with
  | some _ => truefontsGet loader t
  | none => (t.truefontsCache, t)

/-- `generate_image(chars, bg_color, fg_color)` (lines 537-580):
default colors, the base captcha image, the distortion stack, and the
final SMOOTH filter. -/
def generate_image_st (sem : DrawSem) (gr : GenRand) (loader : String → ℕ → Option ℕ)
    (s : CaptchaState) (chars : List Char) (bgColor fgColor : Option (List ℤ)) :
    PImage × CaptchaState :=
  let background := bgColor.getD (random_color gr.bgDraw 240 255 none)
  let fgOpacity : ℤ := (gr.fgOpacityDraw % 36 : ℕ) + 220
  let color := fgColor.getD (random_color gr.fgDraw 20 100 (some fgOpacity))
  let q := create_captcha_image_st sem gr.layout loader s chars color background
  let q2 := forceFontsIfNonAscii loader q.2
  (filterSmooth sem (distortionStack sem gr q.2.config q2.1 q.1 color), q2.2)

/-- `generate(chars, ...)` (lines 582-593): draw the text when absent,
build the image (the `BytesIO` encoding is boundary I/O and the image
itself is returned). -/
def generate_st (sem : DrawSem) (gr : GenRand) (loader : String → ℕ → Option ℕ)
    (tr : TextRand) (s : CaptchaState) (charsArg : Option (List Char))
    (bgColor fgColor : Option (List ℤ)) : PImage × CaptchaState :=
  let chars := charsArg.getD (generate_text tr none).data
  generate_image_st sem gr loader s chars bgColor fgColor

/-- `write(chars, output, ...)` (lines 595-604): like `generate` but
returns the text used (the file save is boundary I/O). -/
def write_st (sem : DrawSem) (gr : GenRand) (loader : String → ℕ → Option ℕ)
    (tr : TextRand) (s : CaptchaState) (charsArg : Option (List Char))
    (bgColor fgColor : Option (List ℤ)) : List Char × CaptchaState :=
  let chars := charsArg.getD (generate_text tr none).data
  (chars, (generate_image_st sem gr loader s chars bgColor fgColor).2)

/-- The warp magnitude `dx2` of `_draw_character` (line 435):
`w * (randbits(32)/2**32) * (warp_dx[1] - warp_dx[0]) + warp_dx[0]`,
with `u` the uniform draw. -/
def warpDx2 (cfg : Config) (w : ℚ) (u : ℚ) : ℚ :=
  w * u * (cfg.character_warp_dx.2 - cfg.character_warp_dx.1) + cfg.character_warp_dx.1

/-- The warp magnitude `dy2` of `_draw_character` (line 436). -/
def warpDy2 (cfg : Config) (h : ℚ) (u : ℚ) : ℚ :=
  h * u * (cfg.character_warp_dy.2 - cfg.character_warp_dy.1) + cfg.character_warp_dy.1

/-- One warp perturbation (lines 437-440):
`int(u * (m - (-m)) + (-m))` for a magnitude `m` and a fresh uniform
draw `u`. -/
def warpPerturb (m : ℚ) (u : ℚ) : ℤ := truncQ (u * (m - (-m)) + (-m))

/-! ## Helper lemmas -/

/-- Folding over a filtered list is folding over the whole list while
skipping the elements the filter drops. -/
theorem foldl_over_filter {α β : Type} (p : α → Bool) (f : β → α → β) :
    ∀ (l : List α) (b : β),
      (l.filter p).foldl f b = l.foldl (fun x y => if p y then f x y else x) b
  | [], _ => rfl
  | a :: l, b => by
    by_cases h : p a <;> simp [List.filter_cons, h, foldl_over_filter p f l]

/-- Reading the alphabet at any raw index yields an alphabet symbol. -/
theorem alpha_getD_mem (k : ℕ) : alphaList.getD k 'A' ∈ alphaList := by
  rcases h : alphaList.get? k with _ | c
  · rw [List.getD_eq_getD_get?, h]
    decide
  · rw [List.getD_eq_getD_get?, h]
    exact List.get?_mem h

/-- `truncQ` of a non-negative rational is non-negative. -/
theorem truncQ_nonneg (q : ℚ) (h : 0 ≤ q) : 0 ≤ truncQ q := by
  unfold truncQ
  rw [if_neg (by exact not_lt.mpr h)]
  exact Int.floor_nonneg.mpr h

/-! ## C2: tier resolution -/

/-- C2 counterexample: resolving the unregistered tier name `part5`
does not fail; the `else` branch of the constructor silently yields the
base (part2) profile, where the specified contract (`resolveTierSpec`)
demands an `UnknownTierError`. -/
theorem resolve_part5_no_error :
    resolveConfig "part5" = baseConfig ∧ resolveTierSpec "part5" = none := by
  constructor <;> rfl

/-- C2 (amended): resolving any difficulty name other than `part3`
and `part4` — including unregistered names such as `part5` — raises
nothing and yields a copy of the base (part2) profile. -/
theorem resolve_unregistered_falls_back (d : String)
    (h3 : d ≠ "part3") (h4 : d ≠ "part4") : resolveConfig d = baseConfig := by
  unfold resolveConfig
  rw [if_neg h3, if_neg h4]

/-- Witness for `resolve_unregistered_falls_back` at `part5`. -/
theorem resolve_unregistered_falls_back_witness :
    resolveConfig "part5" = baseConfig :=
  resolve_unregistered_falls_back "part5" (by decide) (by decide)

/-! ## C3: generate_text -/

/-- C3: `generate_text(length=L)` returns exactly `L` characters, all
from the 36-symbol alphabet, for every `L` in `[3, 7]`; with the
length omitted, the returned length lies in `[3, 7]`. -/
theorem generate_text_contract (tr : TextRand) (L : ℕ) (h3 : 3 ≤ L) (h7 : L ≤ 7) :
    (generate_text tr (some L)).length = L ∧
    (∀ c ∈ (generate_text tr (some L)).data, c ∈ alphaList) ∧
    3 ≤ (generate_text tr none).length ∧ (generate_text tr none).length ≤ 7 := by
  refine ⟨?_, ?_, ?_, ?_⟩
  · simp [generate_text, String.length]
  · intro c hc
    obtain ⟨i, _, he⟩ := List.mem_map.mp
      (show c ∈ (List.range L).map (fun i => alphaList.getD (tr.cdraw i % 36) 'A') from hc)
    exact he ▸ alpha_getD_mem _
  · simp [generate_text, String.length]
  · simp only [generate_text, String.length, Option.getD, List.length_map, List.length_range]
    have := Nat.mod_lt tr.ldraw (show 0 < 5 by decide)
    omega

/-- Concrete random source for the witness. -/
def zeroTextRand : TextRand := { ldraw := 0, cdraw := fun _ => 0 }

/-- Witness for `generate_text_contract` at length 3. -/
theorem generate_text_contract_witness :
    (generate_text zeroTextRand (some 3)).length = 3 :=
  (generate_text_contract zeroTextRand 3 (by decide) (by decide)).1

/-! ## C5: warp magnitudes -/

/-- C5 (code bug): at glyph width `w = 30` under the part2 profile
(`character_warp_dx = (0.1, 0.3)`) with the uniform draw `u = 0`, the
horizontal warp magnitude computed by the code is
`dx2 = w*u*(hi-lo) + lo = 0.1`,
far below `w*lo = 3`: the magnitude is not the glyph width scaled by a
factor in `[lo, hi]` (the parenthesisation adds the raw fraction `lo`
instead of scaling it by `w`). -/
theorem warp_magnitude_outside_scaled_range :
    warpDx2 baseConfig 30 0 = 1/10 ∧
    warpDx2 baseConfig 30 0 < 30 * baseConfig.character_warp_dx.1 := by
  constructor <;> norm_num [warpDx2, baseConfig]

/-! ## C4: spacing per gap -/

/-- C4 counterexample: with the default width 160 and 45 glyph
images, `int(target_spacing_width / (num_chars - 1)) = int(43.2 / 44)`
is `0` — the base spacing has no positive floor. -/
theorem spacing_per_gap_zero :
    spacingPerGapBase 160 45 = 0 ∧ ¬ (1 ≤ spacingPerGapBase 160 45) := by
  have h : spacingPerGapBase 160 45 = 0 := by
    unfold spacingPerGapBase spacingGuarded targetSpacingWidth availableWidth
    norm_num
  exact ⟨h, by omega⟩

/-- C4 (amended): for two or more glyph images the spacing per gap is
exactly `⌊target_spacing_width / (num_chars - 1)⌋`; it is non-negative
but has no positive floor.  When `character_overlap` is enabled the
gap is reduced by the truncated 30% fraction and floored at 5 (so it
is at least 5 and never exceeds `max 5` of the base gap); when
disabled it is unchanged. -/
theorem spacing_per_gap_layout (cfg : Config) (W n : ℕ) (hn : 2 ≤ n) :
    spacingPerGapBase W n = ⌊targetSpacingWidth W / ((n : ℚ) - 1)⌋ ∧
    0 ≤ spacingPerGapBase W n ∧
    (cfg.character_overlap = true →
      spacingWithOverlap cfg (spacingPerGapBase W n)
          = max 5 (spacingPerGapBase W n - truncQ ((spacingPerGapBase W n : ℚ) * (3/10))) ∧
      5 ≤ spacingWithOverlap cfg (spacingPerGapBase W n) ∧
      spacingWithOverlap cfg (spacingPerGapBase W n) ≤ max 5 (spacingPerGapBase W n)) ∧
    (cfg.character_overlap = false →
      spacingWithOverlap cfg (spacingPerGapBase W n) = spacingPerGapBase W n) := by
  have h1 : 1 < n := hn
  have hq : ((n : ℚ) - 1) ≠ 0 := by
    have : (1 : ℚ) < (n : ℚ) := by exact_mod_cast h1
    intro hc
    rw [sub_eq_zero] at hc
    rw [hc] at this
    exact lt_irrefl 1 this
  have heq : spacingPerGapBase W n = ⌊targetSpacingWidth W / ((n : ℚ) - 1)⌋ := by
    unfold spacingPerGapBase spacingGuarded
    rw [if_pos h1, if_neg hq]
    rfl
  have hpos : (0 : ℚ) ≤ targetSpacingWidth W / ((n : ℚ) - 1) := by
    apply div_nonneg
    · unfold targetSpacingWidth availableWidth
      positivity
    · have : (1 : ℚ) ≤ (n : ℚ) := by exact_mod_cast Nat.one_le_of_lt h1
      linarith
  have hge : 0 ≤ spacingPerGapBase W n := by
    rw [heq]
    exact Int.floor_nonneg.mpr hpos
  refine ⟨heq, hge, fun hov => ?_, fun hov => ?_⟩
  · have hred : 0 ≤ truncQ ((spacingPerGapBase W n : ℚ) * (3/10)) := by
      apply truncQ_nonneg
      have : (0 : ℚ) ≤ (spacingPerGapBase W n : ℚ) := by exact_mod_cast hge
      linarith
    unfold spacingWithOverlap
    rw [if_pos hov]
    refine ⟨rfl, le_max_left _ _, ?_⟩
    apply max_le (le_max_left _ _)
    exact le_trans (by omega) (le_max_right (5 : ℤ) _)
  · unfold spacingWithOverlap
    rw [if_neg (by simp [hov])]

/-- A part2 profile with `character_overlap` switched on, for the
witness. -/
def overlapTestConfig : Config := { baseConfig with character_overlap := true }

/-- Witness for `spacing_per_gap_layout`: the overlap-adjusted gap at
width 160 with 5 glyphs is at least the floor of 5. -/
theorem spacing_per_gap_layout_witness :
    5 ≤ spacingWithOverlap overlapTestConfig (spacingPerGapBase 160 5) :=
  ((spacing_per_gap_layout overlapTestConfig 160 5 (by decide)).2.2.1 rfl).2.1

/-! ## C1: space insertion -/

/-- C1 counterexample: with `word_space_probability = 0.3` and a
uniform draw of `0.9`, the character loop does insert a space glyph
before the character even though the draw does not fall below the
probability — the code inserts exactly when the draw exceeds it. -/
theorem space_inserted_on_high_draw :
    buildGlyphs (3/10) (fun _ => 9/10) ['A'] 0 = [Glyph.space, Glyph.chr 'A'] ∧
    ¬ ((9/10 : ℚ) < 3/10) := by
  constructor
  · show (if (3/10 : ℚ) < (9/10 : ℚ) then [Glyph.space] else []) ++
        Glyph.chr 'A' :: buildGlyphs (3/10) (fun _ => 9/10) [] 1 = _
    rw [if_pos (by norm_num)]
    rfl
  · norm_num

/-- C1 (amended): for each character of the input text the loop
appends a rendered space glyph immediately before it exactly when the
uniform draw for that position exceeds `word_space_probability` (so a
space appears with probability `1 - word_space_probability`), and the
character itself is always rendered: the character glyphs of the
stream are exactly the input text in order, and the number of spaces
is the number of positions whose draw exceeds the probability. -/
theorem space_insertion_rule (p : ℚ) (u : ℕ → ℚ) (chars : List Char) (i : ℕ) :
    (buildGlyphs p u chars i).filterMap glyphChar = chars ∧
    (buildGlyphs p u chars i).count Glyph.space
        = (List.range chars.length).countP (fun j => decide (p < u (i + j))) ∧
    (∀ c rest, buildGlyphs p u (c :: rest) i
        = (if p < u i then [Glyph.space] else []) ++
          Glyph.chr c :: buildGlyphs p u rest (i + 1)) := by
  refine ⟨?_, ?_, fun c rest => rfl⟩
  · induction chars generalizing i with
    | nil => rfl
    | cons c rest ih =>
      show ((if p < u i then [Glyph.space] else []) ++
          Glyph.chr c :: buildGlyphs p u rest (i + 1)).filterMap glyphChar = c :: rest
      rw [List.filterMap_append]
      by_cases h : p < u i <;>
        simp [h, glyphChar, ih (i + 1)]
  · induction chars generalizing i with
    | nil => rfl
    | cons c rest ih =>
      have hstep : (buildGlyphs p u (c :: rest) i).count Glyph.space
          = (if p < u i then 1 else 0) + (buildGlyphs p u rest (i + 1)).count Glyph.space := by
        show ((if p < u i then [Glyph.space] else []) ++
            Glyph.chr c :: buildGlyphs p u rest (i + 1)).count Glyph.space = _
        by_cases h : p < u i <;>
          simp [h, List.count_append, List.count_cons] <;> omega
      have hshift : ((fun j => decide (p < u (i + j))) ∘ Nat.succ)
          = fun j => decide (p < u (i + 1 + j)) := by
        funext j
        have h2 : i + Nat.succ j = i + 1 + j := by omega
        simp only [Function.comp_apply, h2]
      have hrange : (List.range (c :: rest).length).countP (fun j => decide (p < u (i + j)))
          = (List.range rest.length).countP (fun j => decide (p < u (i + 1 + j)))
            + (if p < u i then 1 else 0) := by
        rw [List.length_cons, List.range_succ_eq_map, List.countP_cons, List.countP_map, hshift]
        by_cases h : p < u i <;> simp [h]
      rw [hstep, ih (i + 1), hrange]
      omega

/-! ## C6: empty text and gap-division safety -/

/-- C6: `create_captcha_image` on zero-length text returns the
background-only canvas (no glyphs are composited and nothing raises),
and the gap division is guarded by `num_chars > 1`, so its divisor is
never zero for any glyph count: the guarded spacing computation always
produces a value. -/
theorem empty_text_and_gap_safety (sem : DrawSem) (r : LayoutRand) (cfg : Config)
    (color background : List ℤ) (W H : ℕ) :
    create_captcha_image sem r cfg [] color background W H
        = backgroundCanvas cfg W H background ∧
    ∀ W2 n : ℕ, (spacingGuarded W2 n).isSome = true := by
  constructor
  · rfl
  · intro W2 n
    unfold spacingGuarded
    by_cases h : 1 < n
    · rw [if_pos h, if_neg]
      · rfl
      · have h1 : (1 : ℚ) < (n : ℚ) := by exact_mod_cast h
        intro hc
        rw [sub_eq_zero] at hc
        rw [hc] at h1
        exact lt_irrefl 1 h1
    · rw [if_neg h]
      rfl

/-! ## C7: non-ASCII distractor failures are skipped -/

/-- C7: `add_non_ascii_distractors` always returns an image of the
same size and mode (the call completes for every failure pattern), and
its result is the fold of exactly the successful placements in order:
an attempt whose text draw fails contributes nothing, and every later
attempt is still made. -/
theorem nonascii_failure_skips_one (sem : DrawSem) (r : NonAsciiRand) (tf : List ℕ)
    (img : PImage) (color : List ℤ) (count : ℕ) :
    (add_non_ascii_distractors sem r tf img color count).width = img.width ∧
    (add_non_ascii_distractors sem r tf img color count).height = img.height ∧
    (add_non_ascii_distractors sem r tf img color count).mode = img.mode ∧
    (add_non_ascii_distractors sem r tf img color count).pix
        = if tf.isEmpty then img.pix
          else ((List.range count).filter
              (fun i => (nonAsciiAttempt sem r tf img.width img.height color i).isSome)).foldl
              (fun pix i => (nonAsciiAttempt sem r tf img.width img.height color i).getD id pix)
              img.pix := by
  unfold add_non_ascii_distractors
  by_cases h : tf.isEmpty
  · rw [if_pos h]
    exact ⟨rfl, rfl, rfl, by rw [if_pos h]⟩
  · rw [if_neg h]
    refine ⟨rfl, rfl, rfl, ?_⟩
    show _ = if tf.isEmpty then img.pix else _
    rw [if_neg h, foldl_over_filter]
    have hfun : (fun (pix : Pix) i =>
          match nonAsciiAttempt sem r tf img.width img.height color i with
          | none => pix
          | some f => f pix)
        = fun (pix : Pix) i =>
            if (nonAsciiAttempt sem r tf img.width img.height color i).isSome = true then
              (nonAsciiAttempt sem r tf img.width img.height color i).getD id pix
            else pix := by
      funext pix i
      rcases ha : nonAsciiAttempt sem r tf img.width img.height color i with _ | f <;>
        simp [ha]
    rw [hfun]

/-! ## C10: the positive-size filter removes nothing -/

/-- C10: the space glyph is the fixed 10 by 10 fully transparent
placeholder, so it passes the positive-size filter; and as long as
every measured character box is positive (true of every rendered font
glyph), the filter of line 472 removes no image at all: every inserted
space contributes to the glyph count, total width and spacing
computation of the layout. -/
theorem positive_filter_keeps_all (r : LayoutRand)
    (hm : ∀ i, 0 < (r.meas i).1 ∧ 0 < (r.meas i).2) :
    spaceImage.width = 10 ∧ spaceImage.height = 10 ∧
    (∀ x y, spaceImage.pix x y = [0, 0, 0, 0]) ∧
    ∀ gl : List Glyph,
      filterImages (glyphImages r gl) = glyphImages r gl ∧
      (filterImages (glyphImages r gl)).length = gl.length := by
  refine ⟨rfl, rfl, fun x y => rfl, fun gl => ?_⟩
  have hall : filterImages (glyphImages r gl) = glyphImages r gl := by
    apply List.filter_eq_self.mpr
    intro im him
    obtain ⟨⟨i, g⟩, _, he⟩ := List.mem_map.mp him
    cases g with
    | space =>
        rw [← he]
        rfl
    | chr c =>
        rw [← he]
        simp only [drawCharacter, Bool.and_eq_true, decide_eq_true_eq]
        exact hm i
  refine ⟨hall, ?_⟩
  rw [hall]
  unfold glyphImages
  rw [List.length_map, List.enum_length]

/-- Concrete layout randomness for the witness: every measured box is
20 by 30. -/
def sampleLayoutRand : LayoutRand where
  u := fun _ => 0
  meas := fun _ => (20, 30)
  glyphPix := fun _ => fun _ _ => []
  vdraw := fun _ => 0
  hdraw := fun _ => 0

/-- Witness for `positive_filter_keeps_all`: on a space glyph followed
by a character glyph, the filter keeps both. -/
theorem positive_filter_keeps_all_witness :
    filterImages (glyphImages sampleLayoutRand [Glyph.space, Glyph.chr 'A'])
        = glyphImages sampleLayoutRand [Glyph.space, Glyph.chr 'A'] :=
  ((positive_filter_keeps_all sampleLayoutRand
      (fun _ => ⟨show 0 < 20 by decide, show 0 < 30 by decide⟩)).2.2.2
    [Glyph.space, Glyph.chr 'A']).1

/-! ## Dimension and frame helpers -/

@[simp] theorem createImage_width (m : String) (W H : ℕ) (f : List ℤ) :
    (createImage m W H f).width = W := rfl

@[simp] theorem createImage_height (m : String) (W H : ℕ) (f : List ℤ) :
    (createImage m W H f).height = H := rfl

@[simp] theorem createImage_mode (m : String) (W H : ℕ) (f : List ℤ) :
    (createImage m W H f).mode = m := rfl

@[simp] theorem complex_background_width (img : PImage) :
    (create_complex_background img).width = img.width := rfl

@[simp] theorem complex_background_height (img : PImage) :
    (create_complex_background img).height = img.height := rfl

@[simp] theorem complex_background_mode (img : PImage) :
    (create_complex_background img).mode = img.mode := rfl

@[simp] theorem backgroundCanvas_width (cfg : Config) (W H : ℕ) (bg : List ℤ) :
    (backgroundCanvas cfg W H bg).width = W := by
  unfold backgroundCanvas
  split <;> rfl

@[simp] theorem backgroundCanvas_height (cfg : Config) (W H : ℕ) (bg : List ℤ) :
    (backgroundCanvas cfg W H bg).height = H := by
  unfold backgroundCanvas
  split <;> rfl

@[simp] theorem backgroundCanvas_mode (cfg : Config) (W H : ℕ) (bg : List ℤ) :
    (backgroundCanvas cfg W H bg).mode = "RGB" := by
  unfold backgroundCanvas
  split <;> rfl

@[simp] theorem noise_dots_width (sem : DrawSem) (pos : ℕ → ℕ × ℕ) (img : PImage)
    (color : List ℤ) (n : ℕ) : (create_noise_dots sem pos img color n).width = img.width := rfl

@[simp] theorem noise_dots_height (sem : DrawSem) (pos : ℕ → ℕ × ℕ) (img : PImage)
    (color : List ℤ) (n : ℕ) : (create_noise_dots sem pos img color n).height = img.height := rfl

@[simp] theorem noise_dots_mode (sem : DrawSem) (pos : ℕ → ℕ × ℕ) (img : PImage)
    (color : List ℤ) (n : ℕ) : (create_noise_dots sem pos img color n).mode = img.mode := rfl

@[simp] theorem noise_curve_width (sem : DrawSem) (d : ℕ → ℕ) (img : PImage)
    (color : List ℤ) : (create_noise_curve sem d img color).width = img.width := rfl

@[simp] theorem noise_curve_height (sem : DrawSem) (d : ℕ → ℕ) (img : PImage)
    (color : List ℤ) : (create_noise_curve sem d img color).height = img.height := rfl

@[simp] theorem noise_curve_mode (sem : DrawSem) (d : ℕ → ℕ) (img : PImage)
    (color : List ℤ) : (create_noise_curve sem d img color).mode = img.mode := rfl

@[simp] theorem line_distractors_width (sem : DrawSem) (d : ℕ → ℕ → ℕ) (img : PImage)
    (color : List ℤ) (n : ℕ) : (create_line_distractors sem d img color n).width = img.width := rfl

@[simp] theorem line_distractors_height (sem : DrawSem) (d : ℕ → ℕ → ℕ) (img : PImage)
    (color : List ℤ) (n : ℕ) :
    (create_line_distractors sem d img color n).height = img.height := rfl

@[simp] theorem line_distractors_mode (sem : DrawSem) (d : ℕ → ℕ → ℕ) (img : PImage)
    (color : List ℤ) (n : ℕ) : (create_line_distractors sem d img color n).mode = img.mode := rfl

@[simp] theorem circular_distractors_width (sem : DrawSem) (d : ℕ → ℕ → ℕ) (img : PImage)
    (color : List ℤ) (n : ℕ) :
    (create_circular_distractors sem d img color n).width = img.width := rfl

@[simp] theorem circular_distractors_height (sem : DrawSem) (d : ℕ → ℕ → ℕ) (img : PImage)
    (color : List ℤ) (n : ℕ) :
    (create_circular_distractors sem d img color n).height = img.height := rfl

@[simp] theorem circular_distractors_mode (sem : DrawSem) (d : ℕ → ℕ → ℕ) (img : PImage)
    (color : List ℤ) (n : ℕ) :
    (create_circular_distractors sem d img color n).mode = img.mode := rfl

@[simp] theorem add_non_ascii_width (sem : DrawSem) (r : NonAsciiRand) (tf : List ℕ)
    (img : PImage) (color : List ℤ) (n : ℕ) :
    (add_non_ascii_distractors sem r tf img color n).width = img.width := by
  unfold add_non_ascii_distractors
  split <;> rfl

@[simp] theorem add_non_ascii_height (sem : DrawSem) (r : NonAsciiRand) (tf : List ℕ)
    (img : PImage) (color : List ℤ) (n : ℕ) :
    (add_non_ascii_distractors sem r tf img color n).height = img.height := by
  unfold add_non_ascii_distractors
  split <;> rfl

@[simp] theorem add_non_ascii_mode (sem : DrawSem) (r : NonAsciiRand) (tf : List ℕ)
    (img : PImage) (color : List ℤ) (n : ℕ) :
    (add_non_ascii_distractors sem r tf img color n).mode = img.mode := by
  unfold add_non_ascii_distractors
  split <;> rfl

@[simp] theorem filterSmooth_width (sem : DrawSem) (img : PImage) :
    (filterSmooth sem img).width = img.width := rfl

@[simp] theorem filterSmooth_height (sem : DrawSem) (img : PImage) :
    (filterSmooth sem img).height = img.height := rfl

@[simp] theorem filterSmooth_mode (sem : DrawSem) (img : PImage) :
    (filterSmooth sem img).mode = img.mode := rfl

@[simp] theorem curve_fold_width (sem : DrawSem) (cd : ℕ → ℕ → ℕ) (c : List ℤ)
    (l : List ℕ) (im : PImage) :
    (l.foldl (fun im k => create_noise_curve sem (cd k) im c) im).width = im.width := by
  induction l generalizing im with
  | nil => rfl
  | cons k l ih => exact (ih _).trans rfl

@[simp] theorem curve_fold_height (sem : DrawSem) (cd : ℕ → ℕ → ℕ) (c : List ℤ)
    (l : List ℕ) (im : PImage) :
    (l.foldl (fun im k => create_noise_curve sem (cd k) im c) im).height = im.height := by
  induction l generalizing im with
  | nil => rfl
  | cons k l ih => exact (ih _).trans rfl

@[simp] theorem curve_fold_mode (sem : DrawSem) (cd : ℕ → ℕ → ℕ) (c : List ℤ)
    (l : List ℕ) (im : PImage) :
    (l.foldl (fun im k => create_noise_curve sem (cd k) im c) im).mode = im.mode := by
  induction l generalizing im with
  | nil => rfl
  | cons k l ih => exact (ih _).trans rfl

theorem create_captcha_image_dims (sem : DrawSem) (r : LayoutRand) (cfg : Config)
    (chars : List Char) (color background : List ℤ) (W H : ℕ) :
    (create_captcha_image sem r cfg chars color background W H).width = W ∧
    (create_captcha_image sem r cfg chars color background W H).height = H ∧
    (create_captcha_image sem r cfg chars color background W H).mode = "RGB" := by
  unfold create_captcha_image
  dsimp only
  refine ⟨?_, ?_, ?_⟩ <;> (split <;> simp)

@[simp] theorem create_captcha_image_width (sem : DrawSem) (r : LayoutRand) (cfg : Config)
    (chars : List Char) (color background : List ℤ) (W H : ℕ) :
    (create_captcha_image sem r cfg chars color background W H).width = W :=
  (create_captcha_image_dims sem r cfg chars color background W H).1

@[simp] theorem create_captcha_image_height (sem : DrawSem) (r : LayoutRand) (cfg : Config)
    (chars : List Char) (color background : List ℤ) (W H : ℕ) :
    (create_captcha_image sem r cfg chars color background W H).height = H :=
  (create_captcha_image_dims sem r cfg chars color background W H).2.1

@[simp] theorem create_captcha_image_mode (sem : DrawSem) (r : LayoutRand) (cfg : Config)
    (chars : List Char) (color background : List ℤ) (W H : ℕ) :
    (create_captcha_image sem r cfg chars color background W H).mode = "RGB" :=
  (create_captcha_image_dims sem r cfg chars color background W H).2.2

/-- The second component of `truefontsGet` differs from the input
state only in the `truefontsCache` field. -/
theorem truefontsGet_frame (loader : String → ℕ → Option ℕ) (s : CaptchaState) :
    (truefontsGet loader s).2.config = s.config ∧
    (truefontsGet loader s).2.width = s.width ∧
    (truefontsGet loader s).2.height = s.height ∧
    (truefontsGet loader s).2.fonts = s.fonts ∧
    (truefontsGet loader s).2.font_sizes = s.font_sizes ∧
    (truefontsGet loader s).2.difficulty = s.difficulty := by
  unfold truefontsGet
  by_cases h : s.truefontsCache.isEmpty <;>
    simp [h]

@[simp] theorem truefontsGet_config (loader : String → ℕ → Option ℕ) (s : CaptchaState) :
    (truefontsGet loader s).2.config = s.config := (truefontsGet_frame loader s).1

@[simp] theorem truefontsGet_width (loader : String → ℕ → Option ℕ) (s : CaptchaState) :
    (truefontsGet loader s).2.width = s.width := (truefontsGet_frame loader s).2.1

@[simp] theorem truefontsGet_height (loader : String → ℕ → Option ℕ) (s : CaptchaState) :
    (truefontsGet loader s).2.height = s.height := (truefontsGet_frame loader s).2.2.1

@[simp] theorem truefontsGet_fonts (loader : String → ℕ → Option ℕ) (s : CaptchaState) :
    (truefontsGet loader s).2.fonts = s.fonts := (truefontsGet_frame loader s).2.2.2.1

@[simp] theorem truefontsGet_sizes (loader : String → ℕ → Option ℕ) (s : CaptchaState) :
    (truefontsGet loader s).2.font_sizes = s.font_sizes :=
  (truefontsGet_frame loader s).2.2.2.2.1

@[simp] theorem truefontsGet_difficulty (loader : String → ℕ → Option ℕ) (s : CaptchaState) :
    (truefontsGet loader s).2.difficulty = s.difficulty :=
  (truefontsGet_frame loader s).2.2.2.2.2

@[simp] theorem forceFonts_config (loader : String → ℕ → Option ℕ) (t : CaptchaState) :
    (forceFontsIfNonAscii loader t).2.config = t.config := by
  unfold forceFontsIfNonAscii
  rcases t.config.non_ascii_distractors with _ | n <;> simp

@[simp] theorem forceFonts_width (loader : String → ℕ → Option ℕ) (t : CaptchaState) :
    (forceFontsIfNonAscii loader t).2.width = t.width := by
  unfold forceFontsIfNonAscii
  rcases t.config.non_ascii_distractors with _ | n <;> simp

@[simp] theorem forceFonts_height (loader : String → ℕ → Option ℕ) (t : CaptchaState) :
    (forceFontsIfNonAscii loader t).2.height = t.height := by
  unfold forceFontsIfNonAscii
  rcases t.config.non_ascii_distractors with _ | n <;> simp

@[simp] theorem forceFonts_fonts (loader : String → ℕ → Option ℕ) (t : CaptchaState) :
    (forceFontsIfNonAscii loader t).2.fonts = t.fonts := by
  unfold forceFontsIfNonAscii
  rcases t.config.non_ascii_distractors with _ | n <;> simp

@[simp] theorem forceFonts_sizes (loader : String → ℕ → Option ℕ) (t : CaptchaState) :
    (forceFontsIfNonAscii loader t).2.font_sizes = t.font_sizes := by
  unfold forceFontsIfNonAscii
  rcases t.config.non_ascii_distractors with _ | n <;> simp

@[simp] theorem forceFonts_difficulty (loader : String → ℕ → Option ℕ) (t : CaptchaState) :
    (forceFontsIfNonAscii loader t).2.difficulty = t.difficulty := by
  unfold forceFontsIfNonAscii
  rcases t.config.non_ascii_distractors with _ | n <;> simp

@[simp] theorem distortionStack_width (sem : DrawSem) (gr : GenRand) (cfg : Config)
    (tf : List ℕ) (im : PImage) (color : List ℤ) :
    (distortionStack sem gr cfg tf im color).width = im.width := by
  unfold distortionStack
  rcases cfg.line_distractors with _ | k <;>
    rcases cfg.circular_distractors with _ | m <;>
      rcases cfg.non_ascii_distractors with _ | n <;>
        simp

@[simp] theorem distortionStack_height (sem : DrawSem) (gr : GenRand) (cfg : Config)
    (tf : List ℕ) (im : PImage) (color : List ℤ) :
    (distortionStack sem gr cfg tf im color).height = im.height := by
  unfold distortionStack
  rcases cfg.line_distractors with _ | k <;>
    rcases cfg.circular_distractors with _ | m <;>
      rcases cfg.non_ascii_distractors with _ | n <;>
        simp

@[simp] theorem distortionStack_mode (sem : DrawSem) (gr : GenRand) (cfg : Config)
    (tf : List ℕ) (im : PImage) (color : List ℤ) :
    (distortionStack sem gr cfg tf im color).mode = im.mode := by
  unfold distortionStack
  rcases cfg.line_distractors with _ | k <;>
    rcases cfg.circular_distractors with _ | m <;>
      rcases cfg.non_ascii_distractors with _ | n <;>
        simp

theorem create_st_parts (sem : DrawSem) (r : LayoutRand) (loader : String → ℕ → Option ℕ)
    (s : CaptchaState) (chars : List Char) (color background : List ℤ) :
    (create_captcha_image_st sem r loader s chars color background).1.width = s.width ∧
    (create_captcha_image_st sem r loader s chars color background).1.height = s.height ∧
    (create_captcha_image_st sem r loader s chars color background).1.mode = "RGB" ∧
    (create_captcha_image_st sem r loader s chars color background).2.config = s.config ∧
    (create_captcha_image_st sem r loader s chars color background).2.width = s.width ∧
    (create_captcha_image_st sem r loader s chars color background).2.height = s.height ∧
    (create_captcha_image_st sem r loader s chars color background).2.fonts = s.fonts ∧
    (create_captcha_image_st sem r loader s chars color background).2.font_sizes
        = s.font_sizes ∧
    (create_captcha_image_st sem r loader s chars color background).2.difficulty
        = s.difficulty := by
  unfold create_captcha_image_st
  by_cases h : chars.isEmpty <;> simp [h]

@[simp] theorem create_st_fst_width (sem : DrawSem) (r : LayoutRand)
    (loader : String → ℕ → Option ℕ) (s : CaptchaState) (chars : List Char)
    (color background : List ℤ) :
    (create_captcha_image_st sem r loader s chars color background).1.width = s.width :=
  (create_st_parts sem r loader s chars color background).1

@[simp] theorem create_st_fst_height (sem : DrawSem) (r : LayoutRand)
    (loader : String → ℕ → Option ℕ) (s : CaptchaState) (chars : List Char)
    (color background : List ℤ) :
    (create_captcha_image_st sem r loader s chars color background).1.height = s.height :=
  (create_st_parts sem r loader s chars color background).2.1

@[simp] theorem create_st_fst_mode (sem : DrawSem) (r : LayoutRand)
    (loader : String → ℕ → Option ℕ) (s : CaptchaState) (chars : List Char)
    (color background : List ℤ) :
    (create_captcha_image_st sem r loader s chars color background).1.mode = "RGB" :=
  (create_st_parts sem r loader s chars color background).2.2.1

@[simp] theorem create_st_snd_config (sem : DrawSem) (r : LayoutRand)
    (loader : String → ℕ → Option ℕ) (s : CaptchaState) (chars : List Char)
    (color background : List ℤ) :
    (create_captcha_image_st sem r loader s chars color background).2.config = s.config :=
  (create_st_parts sem r loader s chars color background).2.2.2.1

@[simp] theorem create_st_snd_width (sem : DrawSem) (r : LayoutRand)
    (loader : String → ℕ → Option ℕ) (s : CaptchaState) (chars : List Char)
    (color background : List ℤ) :
    (create_captcha_image_st sem r loader s chars color background).2.width = s.width :=
  (create_st_parts sem r loader s chars color background).2.2.2.2.1

@[simp] theorem create_st_snd_height (sem : DrawSem) (r : LayoutRand)
    (loader : String → ℕ → Option ℕ) (s : CaptchaState) (chars : List Char)
    (color background : List ℤ) :
    (create_captcha_image_st sem r loader s chars color background).2.height = s.height :=
  (create_st_parts sem r loader s chars color background).2.2.2.2.2.1

@[simp] theorem create_st_snd_fonts (sem : DrawSem) (r : LayoutRand)
    (loader : String → ℕ → Option ℕ) (s : CaptchaState) (chars : List Char)
    (color background : List ℤ) :
    (create_captcha_image_st sem r loader s chars color background).2.fonts = s.fonts :=
  (create_st_parts sem r loader s chars color background).2.2.2.2.2.2.1

@[simp] theorem create_st_snd_sizes (sem : DrawSem) (r : LayoutRand)
    (loader : String → ℕ → Option ℕ) (s : CaptchaState) (chars : List Char)
    (color background : List ℤ) :
    (create_captcha_image_st sem r loader s chars color background).2.font_sizes
        = s.font_sizes :=
  (create_st_parts sem r loader s chars color background).2.2.2.2.2.2.2.1

@[simp] theorem create_st_snd_difficulty (sem : DrawSem) (r : LayoutRand)
    (loader : String → ℕ → Option ℕ) (s : CaptchaState) (chars : List Char)
    (color background : List ℤ) :
    (create_captcha_image_st sem r loader s chars color background).2.difficulty
        = s.difficulty :=
  (create_st_parts sem r loader s chars color background).2.2.2.2.2.2.2.2

/-! ## C8: canvas dimensions are invariant -/

/-- C8: `create_captcha_image` returns an image of exactly the
configured width and height in RGB mode, for every text, color pair
and profile; and so does `generate_image` — no compositing step,
distortion layer or the final smoothing filter changes the canvas
size or mode. -/
theorem generated_image_dimensions (sem : DrawSem) (gr : GenRand)
    (loader : String → ℕ → Option ℕ) (s : CaptchaState) (r : LayoutRand) (cfg : Config)
    (chars chars2 : List Char) (color background : List ℤ)
    (bgColor fgColor : Option (List ℤ)) (W H : ℕ) :
    ((create_captcha_image sem r cfg chars2 color background W H).width = W ∧
     (create_captcha_image sem r cfg chars2 color background W H).height = H ∧
     (create_captcha_image sem r cfg chars2 color background W H).mode = "RGB") ∧
    ((generate_image_st sem gr loader s chars bgColor fgColor).1.width = s.width ∧
     (generate_image_st sem gr loader s chars bgColor fgColor).1.height = s.height ∧
     (generate_image_st sem gr loader s chars bgColor fgColor).1.mode = "RGB") := by
  constructor
  · exact ⟨by simp, by simp, by simp⟩
  · unfold generate_image_st
    refine ⟨?_, ?_, ?_⟩ <;> simp

/-! ## C9: generation never writes the profile or geometry -/

/-- C9: every generation entry point — `create_captcha_image`,
`generate_image`, `generate` and `write` — leaves the instance
difficulty profile, width, height, font-path list, font sizes and
difficulty name unchanged: the profile resolved at construction is
only read during generation (only the lazy `_truefonts` cache can be
filled). -/
theorem generation_preserves_instance (sem : DrawSem) (gr : GenRand)
    (loader : String → ℕ → Option ℕ) (tr : TextRand) (s : CaptchaState) (r : LayoutRand)
    (chars : List Char) (color background : List ℤ) (charsArg : Option (List Char))
    (bgColor fgColor : Option (List ℤ)) :
    ((create_captcha_image_st sem r loader s chars color background).2.config = s.config ∧
     (create_captcha_image_st sem r loader s chars color background).2.width = s.width ∧
     (create_captcha_image_st sem r loader s chars color background).2.height = s.height ∧
     (create_captcha_image_st sem r loader s chars color background).2.fonts = s.fonts ∧
     (create_captcha_image_st sem r loader s chars color background).2.font_sizes
        = s.font_sizes) ∧
    ((generate_image_st sem gr loader s chars bgColor fgColor).2.config = s.config ∧
     (generate_image_st sem gr loader s chars bgColor fgColor).2.width = s.width ∧
     (generate_image_st sem gr loader s chars bgColor fgColor).2.height = s.height ∧
     (generate_image_st sem gr loader s chars bgColor fgColor).2.fonts = s.fonts ∧
     (generate_image_st sem gr loader s chars bgColor fgColor).2.font_sizes
        = s.font_sizes) ∧
    ((generate_st sem gr loader tr s charsArg bgColor fgColor).2.config = s.config ∧
     (generate_st sem gr loader tr s charsArg bgColor fgColor).2.width = s.width ∧
     (generate_st sem gr loader tr s charsArg bgColor fgColor).2.height = s.height ∧
     (generate_st sem gr loader tr s charsArg bgColor fgColor).2.fonts = s.fonts ∧
     (generate_st sem gr loader tr s charsArg bgColor fgColor).2.font_sizes
        = s.font_sizes) ∧
    ((write_st sem gr loader tr s charsArg bgColor fgColor).2.config = s.config ∧
     (write_st sem gr loader tr s charsArg bgColor fgColor).2.width = s.width ∧
     (write_st sem gr loader tr s charsArg bgColor fgColor).2.height = s.height ∧
     (write_st sem gr loader tr s charsArg bgColor fgColor).2.fonts = s.fonts ∧
     (write_st sem gr loader tr s charsArg bgColor fgColor).2.font_sizes
        = s.font_sizes) := by
  refine ⟨⟨?_, ?_, ?_, ?_, ?_⟩, ⟨?_, ?_, ?_, ?_, ?_⟩, ⟨?_, ?_, ?_, ?_, ?_⟩,
    ⟨?_, ?_, ?_, ?_, ?_⟩⟩ <;>
    simp [generate_image_st, generate_st, write_st]

end EnhancedCaptcha
